import Mathlib

set_option maxRecDepth 8000

/-!
Shallow embedding of two units of the MoonTVPlus repository:

* the OpenList playback resolver route
  (`src/app/api/openlist/play/[token]/route.ts`), and
* the metadata resolution cascade of the detail panel component
  (the `fetchDetail` closure of `DetailPanel`).

JavaScript truthiness on optional values is modelled explicitly:
`none` and `some ""` are falsy for strings, `none` and `some 0` are
falsy for numbers, `none` and `some false` are falsy for booleans.
External library behaviour that is out of scope of the repository
(URL parsing, cookie decoding, JSON transport) is modelled as already
performed: requests carry their decoded fields and network endpoints
are an oracle argument.
-/

namespace MoonTV

/-- JS truthiness of an optional string: `undefined` / `null` and the
empty string are falsy. -/
def strTruthy : Option String → Bool
  | none => false
  | some s => s != ""

/-- JS truthiness of an optional number: `undefined` / `null` and `0`
are falsy. -/
def natTruthy : Option Nat → Bool
  | none => false
  | some n => n != 0

/-- JS truthiness of an optional boolean. -/
def boolTruthy : Option Bool → Bool
  | none => false
  | some b => b

/-- JS `a || b` on two optional strings. -/
def jsOr (a b : Option String) : Option String :=
  if strTruthy a then a else b

/-- JS `a || b` where the right operand is a plain (always present)
string. -/
def strOrD (a : Option String) (b : String) : String :=
  match a with
  | some s => if s != "" then s else b
  | none => b

/-- JS `a || b` on two optional numbers (`0` is falsy). -/
def natOrOpt (a b : Option Nat) : Option Nat :=
  if natTruthy a then a else b

/-! ## Playback resolver route

`GET /api/openlist/play/{token}?folder=…&fileName=…`, translated from
`src/app/api/openlist/play/[token]/route.ts`. -/

/-- Result of `getAuthInfoFromCookie`; an absent or empty username is
falsy in the route's check. -/
structure AuthInfo where
  username : String
  deriving Repr, DecidableEq

/-- `config.OpenListConfig`; an absent `RootPath` is modelled as `""`
(both are falsy in the `RootPath || '/'` default). -/
structure OpenListConfig where
  Enabled : Bool
  URL : String
  Username : String
  Password : String
  RootPath : String
  deriving Repr, DecidableEq

/-- `data` object of the upstream file response; an absent `raw_url`
is modelled as `""` (both are falsy). -/
structure FileData where
  raw_url : String
  deriving Repr, DecidableEq

/-- Upstream response of `OpenListClient.getFile`. -/
structure FileResponse where
  code : Int
  message : String
  data : FileData
  deriving Repr, DecidableEq

/-- The decoded inputs of one request to the route: the path token,
the two query parameters, the `TVBOX_SUBSCRIBE_TOKEN` environment
variable, the decoded session cookie and the stored configuration. -/
structure PlayRequest where
  token : String
  folder : Option String
  fileName : Option String
  subscribeToken : Option String
  authInfo : Option AuthInfo
  openListConfig : Option OpenListConfig
  deriving Repr, DecidableEq

/-- The route's possible responses: a JSON error body with a status,
or a redirect (`NextResponse.redirect`, status 307). -/
inductive PlayResponse where
  | json (status : Nat) (error : String)
  | redirect (url : String)
  deriving Repr, DecidableEq

/-- HTTP status of a response. -/
def statusOf : PlayResponse → Nat
  | .json s _ => s
  | .redirect _ => 307

/-- `subscribeToken && requestToken === subscribeToken`. -/
def hasValidToken (req : PlayRequest) : Bool :=
  match req.subscribeToken with
  | none => false
  | some t => t != "" && req.token == t

/-- `authInfo && authInfo.username`. -/
def hasValidAuth (req : PlayRequest) : Bool :=
  match req.authInfo with
  | none => false
  | some a => a.username != ""

/-- JS `rootPath.endsWith('/')`. -/
def endsWithSlash (s : String) : Bool :=
  s.data.reverse.head? == some '/'

/-- Lines 60–62 of the route: the folder path and file path
construction. -/
def buildFilePath (rootPath folderName fileName : String) : String :=
  let folderPath := rootPath ++ (if endsWithSlash rootPath then ("") else ("/")) ++ folderName
  folderPath ++ ("/") ++ fileName

/-- The route's observable outcome: its response, and whether the
upstream `client.getFile` call was made. -/
structure RouteResult where
  response : PlayResponse
  upstreamCalled : Bool
  deriving Repr, DecidableEq

/-- The `GET` handler of the route, with the upstream
`OpenListClient.getFile` given as an oracle. -/
def openListGET (req : PlayRequest) (getFile : String → FileResponse) : RouteResult :=
  if !(hasValidToken req || hasValidAuth req) then
    ⟨.json 401 ("未授权"), false⟩
  else if !(strTruthy req.folder) || !(strTruthy req.fileName) then
    ⟨.json 400 ("缺少参数"), false⟩
  else
    match req.openListConfig with
    | none => ⟨.json 400 ("OpenList 未配置或未启用"), false⟩
    | some cfg =>
      if !cfg.Enabled || cfg.URL == "" || cfg.Username == "" || cfg.Password == "" then
        ⟨.json 400 ("OpenList 未配置或未启用"), false⟩
      else
        let rootPath := if cfg.RootPath != "" then cfg.RootPath else ("/")
        let filePath := buildFilePath rootPath (req.folder.getD ("")) (req.fileName.getD (""))
        let fileResponse := getFile filePath
        if fileResponse.code != 200 || fileResponse.data.raw_url == "" then
          ⟨.json 500 ("获取播放链接失败"), true⟩
        else
          ⟨.redirect fileResponse.data.raw_url, true⟩

/-! ### Normalized path join, from the spec's words

The spec asserts that the constructed remote file path joins the three
segments "with exactly one separating slash at each join point".  The
following definitions state that property (they are the spec side of a
refinement comparison; `buildFilePath` above is the code side). -/

/-- Remove every leading slash. -/
def trimSlashesLeft (s : String) : String :=
  ⟨s.data.dropWhile (· == '/')⟩

/-- Remove every trailing slash. -/
def trimSlashesRight (s : String) : String :=
  ⟨(s.data.reverse.dropWhile (· == '/')).reverse⟩

/-- Modelled from the spec: the path obtained by joining root, folder
and file with exactly one separating slash at each join point. -/
def specSingleSlashPath (root folder file : String) : String :=
  trimSlashesRight root ++ ("/") ++ trimSlashesRight (trimSlashesLeft folder) ++ ("/") ++ trimSlashesLeft file

/-! ### Helper lemmas on character lists -/

lemma dropWhile_beq_eq_self (l : List Char) (c : Char) (h : l.head? ≠ some c) :
    l.dropWhile (· == c) = l := by
  cases l with
  | nil => rfl
  | cons x t =>
    simp only [List.head?] at h
    have hx : (x == c) = false := by
      cases hxc : x == c
      · rfl
      · exact absurd (by simpa using congrArg (some ·) (eq_of_beq hxc)) h
    simp [List.dropWhile, hx]

lemma string_mk_data (s : String) : String.mk s.data = s := by
  cases s; rfl

lemma trimSlashesRight_eq_self (s : String) (h : s.data.reverse.head? ≠ some '/') :
    trimSlashesRight s = s := by
  unfold trimSlashesRight
  rw [dropWhile_beq_eq_self _ _ h, List.reverse_reverse, string_mk_data]

lemma trimSlashesLeft_eq_self (s : String) (h : s.data.head? ≠ some '/') :
    trimSlashesLeft s = s := by
  unfold trimSlashesLeft
  rw [dropWhile_beq_eq_self _ _ h, string_mk_data]

/-! ### Claims C1–C4 -/

/-- C1: if the path token does not equal the configured static token
and no valid session with a non-empty username is present, the
resolver returns HTTP 401 with an error body, whatever the folder,
fileName, configuration and upstream behaviour are. -/
theorem claim1_unauthorized_returns_401 (req : PlayRequest)
    (getFile : String → FileResponse)
    (htok : ∀ t, req.subscribeToken = some t → req.token ≠ t)
    (hauth : ∀ a, req.authInfo = some a → a.username = "") :
    openListGET req getFile = ⟨.json 401 ("未授权"), false⟩ := by
  have h1 : hasValidToken req = false := by
    unfold hasValidToken
    cases hs : req.subscribeToken with
    | none => rfl
    | some t =>
      have hne : (req.token == t) = false := by
        cases hb : req.token == t
        · rfl
        · exact absurd (eq_of_beq hb) (htok t hs)
      simp [hne]
  have h2 : hasValidAuth req = false := by
    unfold hasValidAuth
    cases ha : req.authInfo with
    | none => rfl
    | some a => simp [hauth a ha]
  simp [openListGET, h1, h2]

/-- Concrete unauthorized request: wrong token, no session. -/
def c1req : PlayRequest :=
  { token := "tok", folder := some ("A"), fileName := some ("b.mp4"),
    subscribeToken := some ("secret"), authInfo := none,
    openListConfig := some { Enabled := true, URL := "http://u", Username := "u",
                             Password := "p", RootPath := "/x/" } }

/-- A constant upstream oracle used by the route witnesses. -/
def constOracle : String → FileResponse :=
  fun _ => ⟨200, "", ⟨"http://raw/u.mp4"⟩⟩

/-- Witness for C1 at a concrete request. -/
theorem claim1_witness :
    openListGET c1req constOracle = ⟨.json 401 ("未授权"), false⟩ :=
  claim1_unauthorized_returns_401 c1req constOracle
    (fun t ht => by
      have : t = "secret" := by
        have : (some ("secret") : Option String) = some t := ht
        exact (Option.some_inj.mp this).symm
      rw [this]; decide)
    (fun a ha => by exact absurd ha (by simp [c1req]))

/-- C2 counterexample: a request with a missing `folder` but a wrong
token and no session is answered 401, not 400 — the authorization
check runs first.  (No upstream call occurs either way.) -/
theorem claim2_counterexample :
    statusOf (openListGET
      { token := "tok", folder := none, fileName := some ("b.mp4"),
        subscribeToken := some ("secret"), authInfo := none,
        openListConfig := none } constOracle).response = 401
    ∧ statusOf (openListGET
      { token := "tok", folder := none, fileName := some ("b.mp4"),
        subscribeToken := some ("secret"), authInfo := none,
        openListConfig := none } constOracle).response ≠ 400 := by
  constructor
  · rfl
  · decide

/-- C2 amended: for every request in which `folder` or `fileName` is
absent or empty, no upstream call is attempted; if the request passes
the authorization check it is answered with HTTP 400. -/
theorem claim2_missing_params (req : PlayRequest)
    (getFile : String → FileResponse)
    (hmiss : strTruthy req.folder = false ∨ strTruthy req.fileName = false) :
    (openListGET req getFile).upstreamCalled = false
    ∧ ((hasValidToken req || hasValidAuth req) = true →
        (openListGET req getFile).response = .json 400 ("缺少参数")) := by
  unfold openListGET
  cases hA : hasValidToken req || hasValidAuth req with
  | false => simp
  | true =>
    rcases hmiss with h | h <;> simp [h]

/-- Witness for C2's amended theorem: an authorized request with an
empty `fileName`. -/
theorem claim2_witness :
    (openListGET
      { token := "secret", folder := some ("A"), fileName := some (""),
        subscribeToken := some ("secret"), authInfo := none,
        openListConfig := none } constOracle).upstreamCalled = false
    ∧ ((hasValidToken
      { token := "secret", folder := some ("A"), fileName := some (""),
        subscribeToken := some ("secret"), authInfo := none,
        openListConfig := none } || hasValidAuth
      { token := "secret", folder := some ("A"), fileName := some (""),
        subscribeToken := some ("secret"), authInfo := none,
        openListConfig := none }) = true →
        (openListGET
      { token := "secret", folder := some ("A"), fileName := some (""),
        subscribeToken := some ("secret"), authInfo := none,
        openListConfig := none } constOracle).response = .json 400 ("缺少参数")) :=
  claim2_missing_params _ constOracle (Or.inr (by decide))

/-- C3: under an authorized, well-formed, configured request, the
resolver redirects exactly when the upstream response has `code = 200`
and a non-empty `raw_url`, the redirect target is exactly that
`raw_url`, and on `code ≠ 200` or an empty `raw_url` it returns
HTTP 500 and never redirects. -/
theorem claim3_redirect_iff_upstream (req : PlayRequest)
    (getFile : String → FileResponse) (cfg : OpenListConfig)
    (hA : (hasValidToken req || hasValidAuth req) = true)
    (hf : strTruthy req.folder = true)
    (hg : strTruthy req.fileName = true)
    (hcfg : req.openListConfig = some cfg)
    (hEn : cfg.Enabled = true) (hU : cfg.URL ≠ "")
    (hN : cfg.Username ≠ "") (hP : cfg.Password ≠ "") :
    let fr := getFile (buildFilePath (if cfg.RootPath != "" then cfg.RootPath else ("/"))
      (req.folder.getD ("")) (req.fileName.getD ("")))
    ((fr.code = 200 ∧ fr.data.raw_url ≠ "") →
        openListGET req getFile = ⟨.redirect fr.data.raw_url, true⟩)
    ∧ ((fr.code ≠ 200 ∨ fr.data.raw_url = "") →
        openListGET req getFile = ⟨.json 500 ("获取播放链接失败"), true⟩)
    ∧ (∀ url, (openListGET req getFile).response = .redirect url →
        fr.code = 200 ∧ fr.data.raw_url = url ∧ url ≠ "") := by
  intro fr
  have hc1 : (!(strTruthy req.folder) || !(strTruthy req.fileName)) = false := by
    simp [hf, hg]
  have hc2 : (!cfg.Enabled || cfg.URL == "" || cfg.Username == "" || cfg.Password == "") = false := by
    simp [hEn, hU, hN, hP]
  have hget : openListGET req getFile =
      (if fr.code != 200 || fr.data.raw_url == "" then
        ⟨.json 500 ("获取播放链接失败"), true⟩
      else ⟨.redirect fr.data.raw_url, true⟩) := by
    unfold openListGET
    rw [hA, hc1, hcfg]
    simp only [Bool.not_true, Bool.false_eq_true, if_false]
    rw [hc2]
    simp only [Bool.false_eq_true, if_false]
  refine ⟨?_, ?_, ?_⟩
  · rintro ⟨hc, hr⟩
    rw [hget]
    simp [hc, hr]
  · intro h
    rw [hget]
    rcases h with h | h <;> simp [h]
  · intro url hurl
    rw [hget] at hurl
    by_cases hcond : (fr.code != 200 || fr.data.raw_url == "") = true
    · rw [if_pos hcond] at hurl
      simp at hurl
    · rw [if_neg hcond] at hurl
      have hu : fr.data.raw_url = url := by
        simpa using hurl
      simp only [Bool.or_eq_true, not_or, bne_iff_ne, ne_eq, not_not,
        beq_iff_eq] at hcond
      push_neg at hcond
      exact ⟨hcond.1, hu, hu ▸ hcond.2⟩

/-- Witness for C3 at a concrete authorized request and upstream
response. -/
theorem claim3_witness :
    openListGET
      { token := "secret", folder := some ("A"), fileName := some ("b.mp4"),
        subscribeToken := some ("secret"), authInfo := none,
        openListConfig := some { Enabled := true, URL := "http://u", Username := "u",
                                 Password := "p", RootPath := "/x/" } } constOracle
      = ⟨.redirect ("http://raw/u.mp4"), true⟩ :=
  (claim3_redirect_iff_upstream _ constOracle _ (by decide) (by decide) (by decide)
    rfl rfl (by decide) (by decide) (by decide)).1 ⟨rfl, by decide⟩

/-- C4 counterexample: for the configured root path `"/x//"` the
constructed path keeps both slashes at the root/folder join, so the
join is not normalized to exactly one separating slash. -/
theorem claim4_counterexample :
    buildFilePath ("/x//") ("A") ("b.mp4") = ("/x//A/b.mp4")
    ∧ buildFilePath ("/x//") ("A") ("b.mp4") ≠ specSingleSlashPath ("/x//") ("A") ("b.mp4") := by
  constructor
  · decide
  · decide

/-- C4 amended: if the root path does not end in a double slash and
the folder and file segments carry no slash of their own at the join
boundaries, the constructed path joins the three segments with exactly
one separating slash at each join point; in particular root `"/x/"`,
folder `"A"`, file `"b.mp4"` yield `"/x/A/b.mp4"`. -/
theorem claim4_single_slash_join (root folder file : String)
    (hroot : root.data.reverse.take 2 ≠ ['/', '/'])
    (hf1 : folder.data.head? ≠ some '/')
    (hf2 : folder.data.reverse.head? ≠ some '/')
    (hg1 : file.data.head? ≠ some '/') :
    buildFilePath root folder file = specSingleSlashPath root folder file := by
  have hfolder : trimSlashesRight (trimSlashesLeft folder) = folder := by
    rw [trimSlashesLeft_eq_self folder hf1, trimSlashesRight_eq_self folder hf2]
  have hfile : trimSlashesLeft file = file := trimSlashesLeft_eq_self file hg1
  rcases hr : root.data.reverse with _ | ⟨c, t⟩
  · -- empty root
    have hend : endsWithSlash root = false := by
      unfold endsWithSlash
      rw [hr]; rfl
    have htrim : trimSlashesRight root = root :=
      trimSlashesRight_eq_self root (by rw [hr]; simp)
    unfold buildFilePath specSingleSlashPath
    rw [hfolder, hfile, htrim, hend]
    simp [String.ext_iff, String.data_append]
  · by_cases hc : c = '/'
    · -- root ends in exactly one slash
      subst hc
      have ht : t.head? ≠ some '/' := by
        intro hh
        cases t with
        | nil => simp at hh
        | cons d t2 =>
          simp only [List.head?] at hh
          rw [hr] at hroot
          simp [Option.some_inj.mp hh] at hroot
      have hend : endsWithSlash root = true := by
        unfold endsWithSlash
        rw [hr]; rfl
      have hdata : root.data = t.reverse ++ ['/'] := by
        have := congrArg List.reverse hr
        simpa using this
      have htrim : trimSlashesRight root = ⟨t.reverse⟩ := by
        unfold trimSlashesRight
        rw [hr]
        have : List.dropWhile (· == '/') ('/' :: t) = List.dropWhile (· == '/') t := by
          simp [List.dropWhile]
        rw [this, dropWhile_beq_eq_self t '/' ht]
      unfold buildFilePath specSingleSlashPath
      rw [hfolder, hfile, htrim, hend]
      simp only [String.ext_iff, String.data_append, hdata]
      simp
    · -- root ends in a non-slash character
      have hend : endsWithSlash root = false := by
        unfold endsWithSlash
        rw [hr]
        simp [hc]
      have htrim : trimSlashesRight root = root :=
        trimSlashesRight_eq_self root (by rw [hr]; simp [hc])
      unfold buildFilePath specSingleSlashPath
      rw [hfolder, hfile, htrim, hend]
      simp [String.ext_iff, String.data_append]

/-- Witness for C4's amended theorem at the spec's concrete instance:
root `"/x/"`, folder `"A"`, file `"b.mp4"`. -/
theorem claim4_witness :
    buildFilePath ("/x/") ("A") ("b.mp4") = specSingleSlashPath ("/x/") ("A") ("b.mp4")
    ∧ buildFilePath ("/x/") ("A") ("b.mp4") = ("/x/A/b.mp4") :=
  ⟨claim4_single_slash_join ("/x/") ("A") ("b.mp4")
    (by decide) (by decide) (by decide) (by decide), by decide⟩

/-! ## Metadata resolution cascade

Translation of the `fetchDetail` closure of the `DetailPanel`
component.  Each upstream endpoint is an oracle field; the run records
the network calls it makes, in order.  In payloads, lists of
`{ name }` objects (tags, genres, directors, actors, countries,
languages) are modelled directly as lists of their name strings, which
is the only part of them the code reads. -/

/-- The `cmsData` prop. -/
structure CmsData where
  desc : Option String
  episodes : Option (List String)
  episodes_titles : Option (List String)
  deriving Repr, DecidableEq

/-- The props of the component that `fetchDetail` reads.  `type`
carries its destructuring default `"movie"` already applied. -/
structure DetailPanelProps where
  title : String
  poster : Option String
  doubanId : Option Nat
  bangumiId : Option Nat
  isBangumi : Option Bool
  tmdbId : Option Nat
  type : String
  seasonNumber : Option Nat
  cmsData : Option CmsData
  sourceId : Option String
  source : Option String
  deriving Repr, DecidableEq

/-- A rating in the unified record (`{ value, count }`). -/
structure Rating where
  value : Rat
  count : Rat
  deriving Repr, DecidableEq

/-- The unified media detail record (`DetailData` in the source). The
`title` field is declared `string` in the source interface, but the
branch mappings can in fact store an absent value there, so it is
modelled as optional like what the mappings produce. -/
structure DetailData where
  title : Option String
  originalTitle : Option String := none
  year : Option String := none
  poster : Option String := none
  rating : Option Rating := none
  intro : Option String := none
  genres : Option (List String) := none
  directors : Option (List String) := none
  actors : Option (List String) := none
  countries : Option (List String) := none
  languages : Option (List String) := none
  duration : Option String := none
  episodesCount : Option Nat := none
  releaseDate : Option String := none
  status : Option String := none
  tagline : Option String := none
  seasons : Option Nat := none
  overview : Option String := none
  deriving Repr, DecidableEq

/-- Payload of the internal `/api/source-detail` endpoint. -/
structure SourceDetailData where
  title : Option String
  desc : Option String
  episodes : Option (List String)
  poster : Option String
  year : Option String
  deriving Repr, DecidableEq

/-- `images` object of a Bangumi subject. -/
structure BangumiImages where
  large : Option String
  deriving Repr, DecidableEq

/-- `rating` object of a Bangumi subject. -/
structure BangumiRating where
  score : Rat
  total : Rat
  deriving Repr, DecidableEq

/-- Payload of the Bangumi subject endpoint (tags as name strings). -/
structure BangumiData where
  name_cn : Option String
  name : Option String
  date : Option String
  images : Option BangumiImages
  rating : Option BangumiRating
  summary : Option String
  tags : Option (List String)
  eps : Option Nat
  deriving Repr, DecidableEq

/-- `pic` object of a Douban detail payload. -/
structure DoubanPic where
  large : Option String
  normal : Option String
  deriving Repr, DecidableEq

/-- `rating` object of a Douban detail payload. -/
structure DoubanRating where
  value : Rat
  count : Rat
  deriving Repr, DecidableEq

/-- Payload of the internal Douban detail endpoint (directors and
actors as name strings). -/
structure DoubanData where
  title : Option String
  original_title : Option String
  year : Option String
  pic : Option DoubanPic
  rating : Option DoubanRating
  intro : Option String
  genres : Option (List String)
  directors : Option (List String)
  actors : Option (List String)
  countries : Option (List String)
  languages : Option (List String)
  durations : Option (List String)
  episodes_count : Option Nat
  deriving Repr, DecidableEq

/-- One entry of the TMDB search results. -/
structure TmdbSearchResult where
  id : Nat
  media_type : Option String
  deriving Repr, DecidableEq

/-- Payload of the internal TMDB search endpoint. -/
structure TmdbSearchData where
  results : Option (List TmdbSearchResult)
  deriving Repr, DecidableEq

/-- Payload of the internal TMDB detail endpoint.  Numeric fields only
inspected for truthiness (`vote_average`, `runtime`) are plain values
with `0` standing for an absent one, which is observationally the
same. -/
structure TmdbDetailData where
  title : Option String
  name : Option String
  original_title : Option String
  original_name : Option String
  release_date : Option String
  first_air_date : Option String
  poster_path : Option String
  vote_average : Rat
  vote_count : Rat
  overview : Option String
  genres : Option (List String)
  production_countries : Option (List String)
  spoken_languages : Option (List String)
  runtime : Nat
  number_of_episodes : Option Nat
  status : Option String
  tagline : Option String
  number_of_seasons : Option Nat
  deriving Repr, DecidableEq

/-- Payload of the internal TMDB seasons endpoint (episodes kept only
as the list whose length is read). -/
structure TmdbSeasonData where
  overview : Option String
  episodes : Option (List String)
  deriving Repr, DecidableEq

/-- One endpoint call outcome: a network-level failure (`fetch`
rejected, message of the thrown error), a response with `ok = false`,
or an `ok` response with its parsed payload. -/
inductive Fetch (α : Type) where
  | netErr (msg : String)
  | notOk
  | ok (val : α)
  deriving Repr, DecidableEq

/-- The network oracle: what each endpoint would answer if called. -/
structure Oracle where
  sourceDetail : Fetch SourceDetailData
  bangumi : Fetch BangumiData
  douban : Fetch DoubanData
  tmdbSearch : Fetch TmdbSearchData
  tmdbDetail : Fetch TmdbDetailData
  tmdbSeasons : Fetch TmdbSeasonData
  deriving Repr, DecidableEq

/-- A network call as recorded in a run, with the arguments that the
code interpolates into the request URL. -/
inductive Call where
  | sourceDetail (id source title : String)
  | bangumi (id : Nat)
  | douban (id : Nat)
  | tmdbSearch (query : String)
  | tmdbDetail (id : Nat) (mediaType : String)
  | tmdbSeason (id : Nat) (season : Nat)
  deriving Repr, DecidableEq

/-- Terminal state of one cascade run: `setDetailData` with a record,
or `setError` with a message. -/
inductive FetchOutcome where
  | success (d : DetailData)
  | failure (error : String)
  deriving Repr, DecidableEq

/-- A whole run: its outcome plus the network calls made, in order. -/
structure RunResult where
  outcome : FetchOutcome
  calls : List Call
  deriving Repr, DecidableEq

/-! ### Season-marker patterns

The code matches, in order, `/第([一二三四五六七八九十\d]+)[季部]/`,
`/Season\s*(\d+)/i` and `/S(\d+)/i` against the title, takes the first
pattern that matches anywhere, removes the matched text and recovers a
season number from the captured group. -/

/-- The ten CJK numeral characters of the first pattern's class. -/
def cjkSeasonChars : List Char :=
  ['一', '二', '三', '四', '五', '六', '七', '八', '九', '十']

/-- Characters of the class `[一二三四五六七八九十\d]`. -/
def isSeasonCapChar (c : Char) : Bool :=
  cjkSeasonChars.contains c || c.isDigit

/-- Try `第([class]+)[季部]` at the head of the text; on success
return the captured group and the text after the match.  The class
excludes `季` and `部`, so the greedy capture never backtracks. -/
def tryCJKSeasonAt : List Char → Option (List Char × List Char)
  | [] => none
  | c :: rest =>
    if c = '第' then
      let cap := rest.takeWhile isSeasonCapChar
      let tail := rest.dropWhile isSeasonCapChar
      if cap ≠ [] ∧ (tail.head? = some '季' ∨ tail.head? = some '部') then
        some (cap, tail.tail)
      else none
    else none

/-- Case-insensitive comparison of a pattern word with the head of the
text. -/
def ciStartsWith : List Char → List Char → Bool
  | [], _ => true
  | _ :: _, [] => false
  | p :: ps, c :: cs => (p.toLower == c.toLower) && ciStartsWith ps cs

/-- Try `Season\s*(\d+)` (case-insensitive) at the head of the text.
`\s` and `\d` are disjoint, so the greedy runs never backtrack. -/
def trySeasonWordAt (cs : List Char) : Option (List Char × List Char) :=
  if ciStartsWith ['s', 'e', 'a', 's', 'o', 'n'] cs then
    let afterWord := cs.drop 6
    let afterWs := afterWord.dropWhile Char.isWhitespace
    let cap := afterWs.takeWhile Char.isDigit
    if cap ≠ [] then some (cap, afterWs.dropWhile Char.isDigit) else none
  else none

/-- Try `S(\d+)` (case-insensitive) at the head of the text. -/
def trySAt : List Char → Option (List Char × List Char)
  | [] => none
  | c :: rest =>
    if c.toLower = 's' then
      let cap := rest.takeWhile Char.isDigit
      if cap ≠ [] then some (cap, rest.dropWhile Char.isDigit) else none
    else none

/-- Leftmost match of a head-anchored pattern: returns the text before
the match, the captured group, and the text after the match. -/
def scanFirst (tryAt : List Char → Option (List Char × List Char)) :
    List Char → Option (List Char × List Char × List Char)
  | [] => none
  | c :: rest =>
    match tryAt (c :: rest) with
    | some (cap, after) => some ([], cap, after)
    | none =>
      match scanFirst tryAt rest with
      | some (b, g, a) => some (c :: b, g, a)
      | none => none

/-- The first of the three patterns that matches anywhere in the
title, following the source's pattern order. -/
def firstSeasonMatch (cs : List Char) : Option (List Char × List Char × List Char) :=
  match scanFirst tryCJKSeasonAt cs with
  | some m => some m
  | none =>
    match scanFirst trySeasonWordAt cs with
    | some m => some m
    | none => scanFirst trySAt cs

/-- JS `String.prototype.trim`. -/
def trimChars (cs : List Char) : List Char :=
  ((cs.dropWhile Char.isWhitespace).reverse.dropWhile Char.isWhitespace).reverse

/-- Numeric value of a digit run. -/
def digitsToNat (ds : List Char) : Nat :=
  ds.foldl (fun n c => n * 10 + (c.toNat - '0'.toNat)) 0

/-- JS `parseInt` on a captured group.  Captures contain no leading
whitespace or sign by construction of the patterns, so `parseInt`
reads the leading digit run and is `NaN` (here `none`) when there is
none. -/
def parseIntCap (cs : List Char) : Option Nat :=
  let ds := cs.takeWhile Char.isDigit
  if ds = [] then none else some (digitsToNat ds)

/-- The `chineseNumbers` record lookup: an exact whole-string key
among `一 … 十`. -/
def cjkLookup (cs : List Char) : Option Nat :=
  match cs with
  | [c] =>
    if c = '一' then some 1
    else if c = '二' then some 2
    else if c = '三' then some 3
    else if c = '四' then some 4
    else if c = '五' then some 5
    else if c = '六' then some 6
    else if c = '七' then some 7
    else if c = '八' then some 8
    else if c = '九' then some 9
    else if c = '十' then some 10
    else none
  | _ => none

/-- `chineseNumbers[seasonStr] || parseInt(seasonStr) || undefined`:
the recovered season number of a captured group (`0` and `NaN` are
falsy, leaving it undefined). -/
def seasonFromCapture (cap : List Char) : Option Nat :=
  match cjkLookup cap with
  | some n => some n
  | none =>
    match parseIntCap cap with
    | none => none
    | some 0 => none
    | some n => some n

/-- Lines 285–312 of the component: strip the season marker from the
title and resolve the effective season number. -/
def stripSeason (title : String) (seasonNumber : Option Nat) : String × Option Nat :=
  match firstSeasonMatch title.data with
  | none => (title, seasonNumber)
  | some (b, cap, a) =>
    let searchTitle := String.mk (trimChars (b ++ a))
    let season := if natTruthy seasonNumber then seasonNumber else seasonFromCapture cap
    (searchTitle, season)

/-! ### The cascade itself -/

/-- Step 5 of the cascade: the TMDB search branch (and the final
`MissingParameters` failure when no title is available). -/
def tmdbStep (p : DetailPanelProps) (o : Oracle) : RunResult :=
  if p.title != "" then
    let stripped := stripSeason p.title p.seasonNumber
    let searchTitle := stripped.1
    let extractedSeasonNumber := stripped.2
    match o.tmdbSearch with
    | .netErr m => ⟨.failure m, [.tmdbSearch searchTitle]⟩
    | .notOk => ⟨.failure ("搜索失败"), [.tmdbSearch searchTitle]⟩
    | .ok sd =>
      match (sd.results.getD []).head? with
      | none => ⟨.failure ("未找到相关内容"), [.tmdbSearch searchTitle]⟩
      | some r =>
        let detailId := r.id
        let mediaType := strOrD r.media_type p.type
        match o.tmdbDetail with
        | .netErr m =>
          ⟨.failure m, [.tmdbSearch searchTitle, .tmdbDetail detailId mediaType]⟩
        | .notOk =>
          ⟨.failure ("获取TMDB详情失败"), [.tmdbSearch searchTitle, .tmdbDetail detailId mediaType]⟩
        | .ok dr =>
          let seasonWanted := natTruthy extractedSeasonNumber && mediaType == "tv"
          let seasonData : Option TmdbSeasonData :=
            if seasonWanted then
              match o.tmdbSeasons with
              | .ok s => some s
              | _ => none
            else none
          let seasonCalls : List Call :=
            if seasonWanted then
              [.tmdbSeason detailId (extractedSeasonNumber.getD 0)]
            else []
          ⟨.success
            { title := if mediaType == "movie" then dr.title else dr.name,
              originalTitle := if mediaType == "movie" then dr.original_title else dr.original_name,
              year := if mediaType == "movie" then dr.release_date.map (String.take · 4)
                      else dr.first_air_date.map (String.take · 4),
              poster := if strTruthy dr.poster_path then
                  some (("https://image.tmdb.org/t/p/w500") ++ dr.poster_path.getD (""))
                else p.poster,
              rating := if dr.vote_average != 0 then
                  some ⟨dr.vote_average, dr.vote_count⟩
                else none,
              intro := jsOr (seasonData.bind (·.overview)) dr.overview,
              genres := dr.genres,
              countries := dr.production_countries,
              languages := dr.spoken_languages,
              duration := if dr.runtime != 0 then
                  some (Nat.repr dr.runtime ++ ("分钟"))
                else none,
              episodesCount := natOrOpt (seasonData.bind (fun s => s.episodes.map List.length))
                dr.number_of_episodes,
              releaseDate := if mediaType == "movie" then dr.release_date else dr.first_air_date,
              status := dr.status,
              tagline := dr.tagline,
              seasons := dr.number_of_seasons,
              overview := dr.overview },
            [.tmdbSearch searchTitle, .tmdbDetail detailId mediaType] ++ seasonCalls⟩
  else
    ⟨.failure ("缺少必要的查询参数"), []⟩

/-- Steps 3–5 of the cascade: the Bangumi branch, the Douban branch,
then the TMDB branch. -/
def afterCms (p : DetailPanelProps) (o : Oracle) : RunResult :=
  if natTruthy p.bangumiId || (boolTruthy p.isBangumi && natTruthy p.doubanId) then
    let actualBangumiId := (natOrOpt p.bangumiId p.doubanId).getD 0
    match o.bangumi with
    | .netErr m => ⟨.failure m, [.bangumi actualBangumiId]⟩
    | .notOk => ⟨.failure ("获取Bangumi详情失败"), [.bangumi actualBangumiId]⟩
    | .ok d =>
      ⟨.success
        { title := jsOr d.name_cn d.name,
          originalTitle := d.name,
          year := if strTruthy d.date then some ((d.date.getD ("")).take 4) else none,
          poster := jsOr (d.images.bind (·.large)) p.poster,
          rating := d.rating.map (fun r => ⟨r.score, r.total⟩),
          intro := d.summary,
          genres := d.tags.map (fun ts => ts.take 5),
          episodesCount := d.eps,
          releaseDate := d.date },
        [.bangumi actualBangumiId]⟩
  else if natTruthy p.doubanId && !(boolTruthy p.isBangumi) then
    let doubanId := p.doubanId.getD 0
    match o.douban with
    | .netErr m => ⟨.failure m, [.douban doubanId]⟩
    | .notOk => ⟨.failure ("获取豆瓣详情失败"), [.douban doubanId]⟩
    | .ok d =>
      ⟨.success
        { title := d.title,
          originalTitle := d.original_title,
          year := d.year,
          poster := jsOr (jsOr (d.pic.bind (·.large)) (d.pic.bind (·.normal))) p.poster,
          rating := d.rating.map (fun r => ⟨r.value, r.count⟩),
          intro := d.intro,
          genres := d.genres,
          directors := d.directors,
          actors := d.actors,
          countries := d.countries,
          languages := d.languages,
          duration := d.durations.bind List.head?,
          episodesCount := d.episodes_count },
        [.douban doubanId]⟩
  else
    tmdbStep p o

/-- The whole `fetchDetail` cascade: the inline CMS branch, the
source-detail branch (whose failures fall through), then
`afterCms`. -/
def fetchDetail (p : DetailPanelProps) (o : Oracle) : RunResult :=
  match p.cmsData with
  | none => afterCms p o
  | some cms =>
    if strTruthy cms.desc then
      ⟨.success
        { title := some p.title,
          intro := cms.desc,
          episodesCount := cms.episodes.map List.length,
          poster := p.poster },
        []⟩
    else if strTruthy p.sourceId && strTruthy p.source then
      let call := Call.sourceDetail (p.sourceId.getD ("")) (p.source.getD ("")) p.title
      match o.sourceDetail with
      | .ok d =>
        ⟨.success
          { title := some (strOrD d.title p.title),
            intro := some (strOrD d.desc ("")),
            episodesCount := natOrOpt (d.episodes.map List.length) (cms.episodes.map List.length),
            poster := jsOr d.poster p.poster,
            year := d.year },
          [call]⟩
      | .notOk =>
        let r := afterCms p o
        ⟨r.outcome, call :: r.calls⟩
      | .netErr _ =>
        let r := afterCms p o
        ⟨r.outcome, call :: r.calls⟩
    else
      afterCms p o

/-! ### Observations on runs -/

/-- Whether a call list contains any TMDB endpoint call. -/
def callsTmdb (cs : List Call) : Bool :=
  cs.any fun c =>
    match c with
    | .tmdbSearch _ => true
    | .tmdbDetail _ _ => true
    | .tmdbSeason _ _ => true
    | _ => false

/-- Whether a call list contains a Bangumi subject call. -/
def callsBangumi (cs : List Call) : Bool :=
  cs.any fun c =>
    match c with
    | .bangumi _ => true
    | _ => false

/-- Whether an outcome is a resolved record. -/
def isSuccess : FetchOutcome → Bool
  | .success _ => true
  | .failure _ => false

/-- The synopsis of a resolved record (`none` on failure). -/
def introOf : FetchOutcome → Option String
  | .success d => d.intro
  | .failure _ => none

/-- Whether a resolved record carries a non-empty title (vacuously
true on failure). -/
def titlePopulated : FetchOutcome → Bool
  | .success d => strTruthy d.title
  | .failure _ => true

/-- A default props value: empty title, everything else absent,
`type` at its `"movie"` default. -/
def props0 : DetailPanelProps :=
  { title := "", poster := none, doubanId := none, bangumiId := none,
    isBangumi := none, tmdbId := none, type := "movie", seasonNumber := none,
    cmsData := none, sourceId := none, source := none }

/-- An oracle whose every endpoint answers with a non-OK response. -/
def oracleAllNotOk : Oracle :=
  ⟨.notOk, .notOk, .notOk, .notOk, .notOk, .notOk⟩

/-- A sample TMDB detail payload used by witnesses. -/
def drSample : TmdbDetailData :=
  { title := some ("T"), name := some ("N"), original_title := none,
    original_name := none, release_date := none,
    first_air_date := some ("2020-01-01"), poster_path := none,
    vote_average := 0, vote_count := 0, overview := some ("SHOW"),
    genres := none, production_countries := none, spoken_languages := none,
    runtime := 0, number_of_episodes := some 24, status := none,
    tagline := none, number_of_seasons := some 2 }

/-! ### Claims C5–C10 -/

/-- C5: the cascade's failure policy is asymmetric.  A failed
source-detail lookup (non-OK or network error) falls through to the
rest of the cascade; a non-OK Bangumi lookup or a non-OK Douban lookup
terminates the whole resolution with a non-empty error message and no
TMDB call is attempted. -/
theorem claim5_asymmetric_failure (p : DetailPanelProps) (o : Oracle) (cms : CmsData) :
    (p.cmsData = some cms → strTruthy cms.desc = false →
      strTruthy p.sourceId = true → strTruthy p.source = true →
      (o.sourceDetail = .notOk ∨ ∃ m, o.sourceDetail = .netErr m) →
      fetchDetail p o = ⟨(afterCms p o).outcome,
        .sourceDetail (p.sourceId.getD ("")) (p.source.getD ("")) p.title
          :: (afterCms p o).calls⟩)
    ∧ (p.cmsData = none →
      (natTruthy p.bangumiId || (boolTruthy p.isBangumi && natTruthy p.doubanId)) = true →
      o.bangumi = .notOk →
      fetchDetail p o = ⟨.failure ("获取Bangumi详情失败"),
        [.bangumi ((natOrOpt p.bangumiId p.doubanId).getD 0)]⟩
      ∧ ("获取Bangumi详情失败" : String) ≠ ""
      ∧ callsTmdb (fetchDetail p o).calls = false)
    ∧ (p.cmsData = none →
      (natTruthy p.bangumiId || (boolTruthy p.isBangumi && natTruthy p.doubanId)) = false →
      (natTruthy p.doubanId && !(boolTruthy p.isBangumi)) = true →
      o.douban = .notOk →
      fetchDetail p o = ⟨.failure ("获取豆瓣详情失败"), [.douban (p.doubanId.getD 0)]⟩
      ∧ ("获取豆瓣详情失败" : String) ≠ ""
      ∧ callsTmdb (fetchDetail p o).calls = false) := by
  refine ⟨?_, ?_, ?_⟩
  · intro hc hdesc hsid hsrc hfail
    unfold fetchDetail
    rw [hc]
    simp only [hdesc, Bool.false_eq_true, if_false, hsid, hsrc, Bool.and_self, if_true]
    rcases hfail with h | ⟨m, h⟩ <;> rw [h]
  · intro hc hcond hbang
    have hrun : fetchDetail p o = ⟨.failure ("获取Bangumi详情失败"),
        [.bangumi ((natOrOpt p.bangumiId p.doubanId).getD 0)]⟩ := by
      unfold fetchDetail afterCms
      rw [hc, hcond, hbang]
      simp
    refine ⟨hrun, by decide, ?_⟩
    rw [hrun]
    simp [callsTmdb]
  · intro hc hcond1 hcond2 hdou
    have hrun : fetchDetail p o = ⟨.failure ("获取豆瓣详情失败"), [.douban (p.doubanId.getD 0)]⟩ := by
      unfold fetchDetail afterCms
      rw [hc, hcond1, hcond2, hdou]
      simp
    refine ⟨hrun, by decide, ?_⟩
    rw [hrun]
    simp [callsTmdb]

/-- Concrete props for C5's witness: only a Douban id, no CMS data. -/
def c5p : DetailPanelProps :=
  { props0 with title := "t", doubanId := some 7 }

/-- Concrete oracle for C5's witness: the Douban lookup answers
non-OK. -/
def c5o : Oracle := oracleAllNotOk

/-- Witness for C5 at a concrete run: the failed Douban lookup aborts
the cascade without a TMDB search. -/
theorem claim5_witness :
    fetchDetail c5p c5o = ⟨.failure ("获取豆瓣详情失败"), [.douban 7]⟩
    ∧ ("获取豆瓣详情失败" : String) ≠ ""
    ∧ callsTmdb (fetchDetail c5p c5o).calls = false :=
  (claim5_asymmetric_failure c5p c5o ⟨none, none, none⟩).2.2
    rfl (by decide) (by decide) rfl

/-- C6 helper: a digit character is none of the ten CJK numeral
keys. -/
lemma cjkLookup_single_digit (c : Char) (hc : c.isDigit = true) :
    cjkLookup [c] = none := by
  have h1 : ¬ c = '一' := by rintro rfl; exact absurd hc (by decide)
  have h2 : ¬ c = '二' := by rintro rfl; exact absurd hc (by decide)
  have h3 : ¬ c = '三' := by rintro rfl; exact absurd hc (by decide)
  have h4 : ¬ c = '四' := by rintro rfl; exact absurd hc (by decide)
  have h5 : ¬ c = '五' := by rintro rfl; exact absurd hc (by decide)
  have h6 : ¬ c = '六' := by rintro rfl; exact absurd hc (by decide)
  have h7 : ¬ c = '七' := by rintro rfl; exact absurd hc (by decide)
  have h8 : ¬ c = '八' := by rintro rfl; exact absurd hc (by decide)
  have h9 : ¬ c = '九' := by rintro rfl; exact absurd hc (by decide)
  have h10 : ¬ c = '十' := by rintro rfl; exact absurd hc (by decide)
  simp [cjkLookup, h1, h2, h3, h4, h5, h6, h7, h8, h9, h10]

/-- C6 helper: all-digit character lists are their own leading digit
run. -/
lemma takeWhile_all (q : Char → Bool) (l : List Char) (h : ∀ c ∈ l, q c = true) :
    l.takeWhile q = l := by
  induction l with
  | nil => rfl
  | cons c t ih =>
    have hc : q c = true := h c (by simp)
    simp [List.takeWhile, hc, ih fun d hd => h d (by simp [hd])]

/-- Concrete props for C6: the title `剑王朝第二季`, no explicit
season number, no identifiers. -/
def c6p : DetailPanelProps :=
  { props0 with title := "剑王朝第二季" }

/-- Concrete oracle for C6: a TMDB search hit of type `tv` with
id 99. -/
def c6o : Oracle :=
  { oracleAllNotOk with
    tmdbSearch := .ok ⟨some [⟨99, some ("tv")⟩]⟩,
    tmdbDetail := .ok drSample }

/-- C6: for the title `剑王朝第二季` with no supplied season number
the stripped search query is `剑王朝` and the extracted season is 2
(visible in the issued TMDB calls); a captured CJK numeral 一–十 is
translated to 1–10, and an all-digit capture is parsed to its numeric
value. -/
theorem claim6_season_extraction :
    stripSeason ("剑王朝第二季") none = (("剑王朝" : String), some 2)
    ∧ (fetchDetail c6p c6o).calls
        = [.tmdbSearch ("剑王朝"), .tmdbDetail 99 ("tv"), .tmdbSeason 99 2]
    ∧ (seasonFromCapture ['一'] = some 1 ∧ seasonFromCapture ['二'] = some 2
      ∧ seasonFromCapture ['三'] = some 3 ∧ seasonFromCapture ['四'] = some 4
      ∧ seasonFromCapture ['五'] = some 5 ∧ seasonFromCapture ['六'] = some 6
      ∧ seasonFromCapture ['七'] = some 7 ∧ seasonFromCapture ['八'] = some 8
      ∧ seasonFromCapture ['九'] = some 9 ∧ seasonFromCapture ['十'] = some 10)
    ∧ (∀ ds : List Char, ds ≠ [] → (∀ c ∈ ds, c.isDigit = true) →
        0 < digitsToNat ds → seasonFromCapture ds = some (digitsToNat ds)) := by
  refine ⟨by decide, by decide, by decide, ?_⟩
  intro ds hne hdig hpos
  have hcjk : cjkLookup ds = none := by
    cases ds with
    | nil => exact absurd rfl hne
    | cons c t =>
      cases t with
      | nil => exact cjkLookup_single_digit c (hdig c (by simp))
      | cons d t2 => rfl
  have htw : ds.takeWhile Char.isDigit = ds := takeWhile_all Char.isDigit ds hdig
  unfold seasonFromCapture
  rw [hcjk]
  unfold parseIntCap
  rw [htw]
  rw [if_neg hne]
  cases hval : digitsToNat ds with
  | zero => rw [hval] at hpos; exact absurd hpos (by simp)
  | succ k => rfl

/-- Witness for C6's digit-parsing conjunct at the capture `34`. -/
theorem claim6_witness : seasonFromCapture ['3', '4'] = some 34 := by
  have h := claim6_season_extraction.2.2.2 ['3', '4'] (by decide) (by decide) (by decide)
  simpa using h

/-- C7: when the inline CMS data carries a non-empty synopsis and an
episode list, the resolved record takes exactly that synopsis and the
episode list's length, and no network call is made. -/
theorem claim7_inline_desc (p : DetailPanelProps) (o : Oracle) (cms : CmsData)
    (d : String) (eps : List String)
    (hc : p.cmsData = some cms) (hd : cms.desc = some d) (hne : d ≠ "")
    (he : cms.episodes = some eps) :
    fetchDetail p o = ⟨.success
      { title := some p.title, intro := some d,
        episodesCount := some eps.length, poster := p.poster }, []⟩ := by
  have htr : strTruthy (some d) = true := by
    simp [strTruthy, hne]
  unfold fetchDetail
  rw [hc]
  simp only [hd, he, htr, if_true]
  simp

/-- Concrete props for C7's witness. -/
def c7p : DetailPanelProps :=
  { props0 with title := "剧名",
                cmsData := some ⟨some ("X"), some [("e1"), ("e2"), ("e3")], none⟩ }

/-- Witness for C7 at a concrete run: synopsis `X`, three episodes,
zero network calls. -/
theorem claim7_witness :
    fetchDetail c7p oracleAllNotOk = ⟨.success
      { title := some ("剧名"), intro := some ("X"),
        episodesCount := some 3, poster := none }, []⟩ :=
  claim7_inline_desc c7p oracleAllNotOk ⟨some ("X"), some [("e1"), ("e2"), ("e3")], none⟩
    ("X") [("e1"), ("e2"), ("e3")] rfl rfl (by decide) rfl

/-- C8 counterexample: a successful resolution through the inline CMS
branch with an empty supplied title yields a record whose title is
empty, so not every successful record has a non-empty title. -/
theorem claim8_counterexample :
    isSuccess (fetchDetail { props0 with
        cmsData := some ⟨some ("X"), none, none⟩ } oracleAllNotOk).outcome = true
    ∧ titlePopulated (fetchDetail { props0 with
        cmsData := some ⟨some ("X"), none, none⟩ } oracleAllNotOk).outcome = false := by
  constructor
  · decide
  · decide

/-- C8 helper: `a || b` with a non-empty default is non-empty. -/
lemma strOrD_ne (a : Option String) (b : String) (hb : b ≠ "") :
    (strOrD a b != "") = true := by
  unfold strOrD
  match a with
  | none => simpa using hb
  | some s =>
    by_cases hs : s = ""
    · simp [hs]
      simpa using hb
    · simp [hs]

/-- C8 helper: the TMDB branch produces a populated title whenever the
detail payload's `title` and `name` are non-empty. -/
lemma tmdbStep_title_populated (p : DetailPanelProps) (o : Oracle)
    (hm : ∀ t, o.tmdbDetail = .ok t → strTruthy t.title = true ∧ strTruthy t.name = true) :
    titlePopulated (tmdbStep p o).outcome = true := by
  unfold tmdbStep
  by_cases ht : (p.title != "") = true
  · rw [if_pos ht]
    cases hs : o.tmdbSearch with
    | netErr m => rfl
    | notOk => rfl
    | ok sd =>
      simp only []
      cases hh : (sd.results.getD []).head? with
      | none => rfl
      | some r =>
        cases hdet : o.tmdbDetail with
        | netErr m => rfl
        | notOk => rfl
        | ok dr =>
          obtain ⟨h1, h2⟩ := hm dr hdet
          simp only [titlePopulated]
          by_cases hmt : (strOrD r.media_type p.type == "movie") = true
          · simp only [hmt, if_true]
            exact h1
          · simp only [hmt, if_false]
            exact h2
  · rw [if_neg ht]
    rfl

/-- C8 helper: steps 3–5 produce a populated title under the payload
hypotheses. -/
lemma afterCms_title_populated (p : DetailPanelProps) (o : Oracle)
    (hb : ∀ b, o.bangumi = .ok b → strTruthy (jsOr b.name_cn b.name) = true)
    (hd : ∀ d, o.douban = .ok d → strTruthy d.title = true)
    (hm : ∀ t, o.tmdbDetail = .ok t → strTruthy t.title = true ∧ strTruthy t.name = true) :
    titlePopulated (afterCms p o).outcome = true := by
  unfold afterCms
  by_cases h1 : (natTruthy p.bangumiId || (boolTruthy p.isBangumi && natTruthy p.doubanId)) = true
  · rw [if_pos h1]
    cases hbang : o.bangumi with
    | netErr m => rfl
    | notOk => rfl
    | ok b => simpa [titlePopulated] using hb b hbang
  · rw [if_neg h1]
    by_cases h2 : (natTruthy p.doubanId && !(boolTruthy p.isBangumi)) = true
    · rw [if_pos h2]
      cases hdou : o.douban with
      | netErr m => rfl
      | notOk => rfl
      | ok d => simpa [titlePopulated] using hd d hdou
    · rw [if_neg h2]
      exact tmdbStep_title_populated p o hm

/-- C8 amended: every record produced by a successful resolution has a
non-empty title, provided the supplied title is non-empty and whatever
payload the producing source answers carries a non-empty title
(`name_cn || name` for Bangumi, `title` for Douban, `title`/`name` for
TMDB); without those provisos the title may be empty. -/
theorem claim8_title_populated (p : DetailPanelProps) (o : Oracle)
    (ht : p.title ≠ "")
    (hb : ∀ b, o.bangumi = .ok b → strTruthy (jsOr b.name_cn b.name) = true)
    (hd : ∀ d, o.douban = .ok d → strTruthy d.title = true)
    (hm : ∀ t, o.tmdbDetail = .ok t → strTruthy t.title = true ∧ strTruthy t.name = true) :
    titlePopulated (fetchDetail p o).outcome = true := by
  unfold fetchDetail
  cases hc : p.cmsData with
  | none => exact afterCms_title_populated p o hb hd hm
  | some cms =>
    simp only []
    by_cases hdesc : strTruthy cms.desc = true
    · rw [if_pos hdesc]
      simpa [titlePopulated, strTruthy] using ht
    · rw [if_neg hdesc]
      by_cases hsrc : (strTruthy p.sourceId && strTruthy p.source) = true
      · rw [if_pos hsrc]
        cases hsd : o.sourceDetail with
        | ok d =>
          simp only [titlePopulated, strTruthy]
          exact strOrD_ne d.title p.title ht
        | notOk => exact afterCms_title_populated p o hb hd hm
        | netErr m => exact afterCms_title_populated p o hb hd hm
      · rw [if_neg hsrc]
        exact afterCms_title_populated p o hb hd hm

/-- Concrete props for C8's witness: a Douban id only. -/
def c8p : DetailPanelProps :=
  { props0 with title := "t", doubanId := some 3 }

/-- Concrete oracle for C8's witness: the Douban endpoint answers a
payload with title `DT`. -/
def c8o : Oracle :=
  { oracleAllNotOk with
    douban := .ok ⟨some ("DT"), none, none, none, none, none, none, none, none,
      none, none, none, none⟩ }

/-- Witness for C8's amended theorem at a concrete Douban run. -/
theorem claim8_witness : titlePopulated (fetchDetail c8p c8o).outcome = true :=
  claim8_title_populated c8p c8o (by decide)
    (fun b hbep => by exact absurd hbep (by simp [c8o, oracleAllNotOk]))
    (fun d hdep => by
      have : d = ⟨some ("DT"), none, none, none, none, none, none, none, none,
          none, none, none, none⟩ := by
        have h2 : Fetch.ok d = Fetch.ok ⟨some ("DT"), none, none, none, none, none,
            none, none, none, none, none, none, none⟩ := by
          rw [← hdep]; rfl
        cases h2; rfl
      rw [this]; decide)
    (fun t htep => by exact absurd htep (by simp [c8o, oracleAllNotOk]))

/-- C9 helper: the TMDB branch never issues a Bangumi call. -/
lemma callsBangumi_tmdbStep (p : DetailPanelProps) (o : Oracle) :
    callsBangumi (tmdbStep p o).calls = false := by
  unfold tmdbStep
  by_cases ht : (p.title != "") = true
  · rw [if_pos ht]
    cases hs : o.tmdbSearch with
    | netErr m => rfl
    | notOk => rfl
    | ok sd =>
      simp only []
      cases hh : (sd.results.getD []).head? with
      | none => rfl
      | some r =>
        cases hdet : o.tmdbDetail with
        | netErr m => rfl
        | notOk => rfl
        | ok dr =>
          simp only []
          by_cases hw : (natTruthy (stripSeason p.title p.seasonNumber).2
              && strOrD r.media_type p.type == "tv") = true
          · simp [hw, callsBangumi]
          · simp [hw, callsBangumi]
  · rw [if_neg ht]
    rfl

/-- C9: with no CMS data, a supplied (truthy) Bangumi id makes the
Bangumi branch run with that id itself whatever the flag and the
Douban id are; the Douban id is used for the Bangumi lookup exactly
when no Bangumi id is present, the flag is set and the Douban id is
truthy; otherwise no Bangumi call happens at all. -/
theorem claim9_bangumi_id_priority (p : DetailPanelProps) (o : Oracle)
    (hcms : p.cmsData = none) :
    (natTruthy p.bangumiId = true →
      (fetchDetail p o).calls = [.bangumi (p.bangumiId.getD 0)])
    ∧ (natTruthy p.bangumiId = false → boolTruthy p.isBangumi = true →
      natTruthy p.doubanId = true →
      (fetchDetail p o).calls = [.bangumi (p.doubanId.getD 0)])
    ∧ (natTruthy p.bangumiId = false →
      (boolTruthy p.isBangumi && natTruthy p.doubanId) = false →
      callsBangumi (fetchDetail p o).calls = false) := by
  have hfd : fetchDetail p o = afterCms p o := by
    unfold fetchDetail
    rw [hcms]
  refine ⟨?_, ?_, ?_⟩
  · intro hbid
    rw [hfd]
    unfold afterCms
    rw [show (natTruthy p.bangumiId || (boolTruthy p.isBangumi && natTruthy p.doubanId)) = true
      by simp [hbid]]
    have hid : natOrOpt p.bangumiId p.doubanId = p.bangumiId := by
      unfold natOrOpt
      rw [hbid]
      rfl
    rw [hid]
    cases o.bangumi <;> simp
  · intro hbid hflag hdid
    rw [hfd]
    unfold afterCms
    rw [show (natTruthy p.bangumiId || (boolTruthy p.isBangumi && natTruthy p.doubanId)) = true
      by simp [hflag, hdid]]
    have hid : natOrOpt p.bangumiId p.doubanId = p.doubanId := by
      unfold natOrOpt
      rw [hbid]
      rfl
    rw [hid]
    cases o.bangumi <;> simp
  · intro hbid hflag
    rw [hfd]
    unfold afterCms
    rw [show (natTruthy p.bangumiId || (boolTruthy p.isBangumi && natTruthy p.doubanId)) = false
      by simp [hbid, hflag]]
    simp only [Bool.false_eq_true, if_false]
    by_cases h2 : (natTruthy p.doubanId && !(boolTruthy p.isBangumi)) = true
    · rw [if_pos h2]
      cases o.douban <;> simp [callsBangumi]
    · rw [if_neg h2]
      exact callsBangumi_tmdbStep p o

/-- Concrete props for C9's witness: both ids supplied, flag false. -/
def c9p : DetailPanelProps :=
  { props0 with title := "t", doubanId := some 5, bangumiId := some 11,
                isBangumi := some false }

/-- Witness for C9 at a concrete run: the Bangumi call uses the
dedicated Bangumi id 11, not the Douban id. -/
theorem claim9_witness :
    (fetchDetail c9p oracleAllNotOk).calls = [.bangumi 11] :=
  (claim9_bangumi_id_priority c9p oracleAllNotOk rfl).1 (by decide)

/-- C10: in the TMDB branch, a non-OK or failed season-specific fetch
is not terminal: the resolution still succeeds and the synopsis falls
back to the show-level overview of the main detail response. -/
theorem claim10_season_failure_not_terminal (p : DetailPanelProps) (o : Oracle)
    (sd : TmdbSearchData) (r : TmdbSearchResult) (rs : List TmdbSearchResult)
    (dr : TmdbDetailData)
    (hcms : p.cmsData = none)
    (hb : p.bangumiId = none) (hd : p.doubanId = none)
    (ht : p.title ≠ "")
    (hs : o.tmdbSearch = .ok sd)
    (hres : sd.results.getD [] = r :: rs)
    (hmt : strOrD r.media_type p.type = "tv")
    (hseason : natTruthy (stripSeason p.title p.seasonNumber).2 = true)
    (hdet : o.tmdbDetail = .ok dr)
    (hfail : o.tmdbSeasons = .notOk ∨ ∃ m, o.tmdbSeasons = .netErr m) :
    isSuccess (fetchDetail p o).outcome = true
    ∧ introOf (fetchDetail p o).outcome = dr.overview := by
  have hstep : fetchDetail p o = tmdbStep p o := by
    unfold fetchDetail afterCms
    rw [hcms]
    rw [show (natTruthy p.bangumiId || (boolTruthy p.isBangumi && natTruthy p.doubanId)) = false
      by simp [hb, hd, natTruthy]]
    rw [show (natTruthy p.doubanId && !(boolTruthy p.isBangumi)) = false
      by simp [hd, natTruthy]]
    simp
  have htb : (p.title != "") = true := by simpa using ht
  have hnoseason : (match o.tmdbSeasons with
      | .ok s => some s
      | _ => (none : Option TmdbSeasonData)) = none := by
    rcases hfail with h | ⟨m, h⟩ <;> rw [h]
  have hcond : (natTruthy (stripSeason p.title p.seasonNumber).2
      && strOrD r.media_type p.type == "tv") = true := by
    rw [hmt]
    simp [hseason]
  rw [hstep]
  unfold tmdbStep
  rw [if_pos htb, hs]
  simp only []
  rw [hres]
  simp only [List.head?]
  rw [hdet]
  simp only []
  simp only [hcond, if_true]
  rw [hnoseason]
  constructor
  · simp [isSuccess]
  · simp [introOf, jsOr, strTruthy]

/-- Concrete props for C10's witness: an explicit season number 1. -/
def c10p : DetailPanelProps :=
  { props0 with title := "foo", seasonNumber := some 1 }

/-- Concrete oracle for C10's witness: TMDB search hit of type `tv`,
detail payload with show overview `SHOW`, seasons endpoint non-OK. -/
def c10o : Oracle :=
  { oracleAllNotOk with
    tmdbSearch := .ok ⟨some [⟨5, some ("tv")⟩]⟩,
    tmdbDetail := .ok drSample }

/-- Witness for C10 at a concrete run: the failed season fetch still
yields a success whose synopsis is the show-level overview. -/
theorem claim10_witness :
    isSuccess (fetchDetail c10p c10o).outcome = true
    ∧ introOf (fetchDetail c10p c10o).outcome = some ("SHOW") := by
  have h := claim10_season_failure_not_terminal c10p c10o
    ⟨some [⟨5, some ("tv")⟩]⟩ ⟨5, some ("tv")⟩ [] drSample
    rfl rfl rfl (by decide) rfl rfl (by decide) (by decide) rfl (Or.inl rfl)
  exact ⟨h.1, h.2⟩

end MoonTV

